import Mathlib

/-!
Verification of the deterministic text-layout engine of the sliiide
slide-deck editor (src/app/lib/generatePdf.ts, the styled-markup layout
resolver and the HTML slide generator that share its wrapping logic).

Modelling conventions:
* JavaScript strings are embedded as `List Char` (`Text`); `String` values
  appear only in the record fields mirroring the TypeScript `SlideState`.
* JavaScript numbers are embedded as `ℚ` with exact arithmetic.
* pdf-lib's `widthOfTextAtSize` (an external library call on a loaded font)
  is abstracted as a per-character advance-width function `Char → ℚ`,
  summed over the characters of the measured string; this is the same
  per-character model the renderer's own drawing loops use.
-/

namespace Sliiide

abbrev Text := List Char

/-- JavaScript `s.split(sep)` semantics for a single-character separator:
`"" ↦ [""]`, separators at the ends or adjacent produce empty fields. -/
def splitOnChar (sep : Char) : Text → List Text
  | [] => [[]]
  | c :: rest =>
    if c = sep then [] :: splitOnChar sep rest
    else
      match splitOnChar sep rest with
      | [] => [[c]]
      | w :: ws => (c :: w) :: ws

/-- Drop leading whitespace, as JavaScript `trimStart`. -/
def trimLeft : Text → Text
  | [] => []
  | c :: rest => if c.isWhitespace then trimLeft rest else c :: rest

/-- JavaScript `s.trim()`: whitespace removed from both ends. -/
def trim (s : Text) : Text := (trimLeft (trimLeft s).reverse).reverse

/-- Join a list of lines with single spaces (inverse of `splitOnChar ' '`). -/
def joinSp : List Text → Text
  | [] => []
  | l :: ls =>
    match ls with
    | [] => l
    | _ :: _ => l ++ ' ' :: joinSp ls

/-- The letter-spacing-adjusted width used by every wrapping loop in the
source: `measure(testLine) + (testLine.length - 1) * letterSpacing`.
The subtraction is JavaScript number subtraction, so the empty string
contributes `-letterSpacing`. -/
def lineWidth (measure : Text → ℚ) (letterSpacing : ℚ) (line : Text) : ℚ :=
  measure line + ((line.length : ℚ) - 1) * letterSpacing

/-- The greedy wrapping loop shared verbatim by all five copies in the
source (`generateDefaultLayout`, `generateQuadrantLayout`,
`generateQuadrantTopLayout`, `generateCenteredLayout`, `wrapText`):
accumulate a candidate line; when appending the next word would exceed
`maxWidth`, emit the accepted line (if non-empty — JS string truthiness)
and restart from the rejected word. -/
def wrapWords (measure : Text → ℚ) (maxWidth letterSpacing : ℚ) :
    Text → List Text → List Text
  | cur, [] => if cur = [] then [] else [cur]
  | cur, w :: rest =>
    let test := if cur = [] then w else cur ++ ' ' :: w
    if lineWidth measure letterSpacing test ≤ maxWidth then
      wrapWords measure maxWidth letterSpacing test rest
    else if cur = [] then
      wrapWords measure maxWidth letterSpacing w rest
    else
      cur :: wrapWords measure maxWidth letterSpacing w rest

/-- Wrap a text: split on spaces and run the greedy loop. -/
def wrapTextC (measure : Text → ℚ) (text : Text) (maxWidth letterSpacing : ℚ) :
    List Text :=
  wrapWords measure maxWidth letterSpacing [] (splitOnChar ' ' text)

/-- `ESTIMATED_CHAR_WIDTH_TITLE = 70` / `ESTIMATED_CHAR_WIDTH_BODY = 13`:
the approximate per-character width chosen by `wrapText` from the font
size (`fontSize === 125 ? 70 : 13`). -/
def approxCharWidth (fontSize : ℚ) : ℚ := if fontSize = 125 then 70 else 13

/-- Approximate measurement: `testLine.length * charWidth`. -/
def approxMeasure (fontSize : ℚ) : Text → ℚ :=
  fun l => (l.length : ℚ) * approxCharWidth fontSize

/-- `wrapText` from the styled-markup layout resolver
(htmlSlideLayouts.ts): greedy wrapping with the approximate constant
per-character width. -/
def wrapText (text : String) (maxWidth fontSize letterSpacing : ℚ) : List Text :=
  wrapTextC (approxMeasure fontSize) text.data maxWidth letterSpacing

/-- Exact per-character advance widths summed over the string: the model of
`font.widthOfTextAtSize(testLine, size)` used by the PDF renderer. -/
def charSumMeasure (w : Char → ℚ) : Text → ℚ := fun l => (l.map w).sum

/-- Greedy wrapping under the exact measurement strategy. -/
def wrapTextExact (w : Char → ℚ) (text : Text) (maxWidth letterSpacing : ℚ) :
    List Text :=
  wrapTextC (charSumMeasure w) text maxWidth letterSpacing

/-- `SlideState` as consumed by the layout code (types.ts / generatePdf.ts). -/
structure SlideState where
  header : String
  title : String
  bodyText : String
  layout : String
  useBullets : Bool := false
deriving DecidableEq, Repr

/-- `snapToGrid`: round to the nearest multiple of the 40-unit grid pitch
(`Math.round(value / GRID_SIZE) * GRID_SIZE`). -/
def snapToGrid (value : ℚ) : ℚ := (round (value / 40) : ℤ) * 40

/-- The four page quadrants (argument type of `getQuadrantBounds`). -/
inductive Quadrant
  | one | two | three | four
deriving DecidableEq, Repr

/-- Rectangle in pdf-lib coordinates: `y` is the bottom edge, `y = 0` is the
bottom of the page. -/
structure QuadrantBounds where
  x : ℚ
  y : ℚ
  width : ℚ
  height : ℚ
deriving DecidableEq, Repr

/-- `getQuadrantBounds` from generatePdf.ts: page margin 80, quadrant size
880 × 460; quadrants 1,2 are the top row (left, right), 3,4 the bottom row. -/
def getQuadrantBounds : Quadrant → QuadrantBounds
  | .one => { x := 80, y := 80 + 460, width := 880, height := 460 }
  | .two => { x := 80 + 880, y := 80 + 460, width := 880, height := 460 }
  | .three => { x := 80, y := 80, width := 880, height := 460 }
  | .four => { x := 80 + 880, y := 80, width := 880, height := 460 }

/-- The closed rectangle covered by a `QuadrantBounds`. -/
def closedRect (b : QuadrantBounds) : Set (ℚ × ℚ) :=
  {p | b.x ≤ p.1 ∧ p.1 ≤ b.x + b.width ∧ b.y ≤ p.2 ∧ p.2 ≤ b.y + b.height}

/-- The interior of a `QuadrantBounds` rectangle. -/
def openRect (b : QuadrantBounds) : Set (ℚ × ℚ) :=
  {p | b.x < p.1 ∧ p.1 < b.x + b.width ∧ b.y < p.2 ∧ p.2 < b.y + b.height}

/-- The margined interior of the 1920 × 1080 page: the 1760 × 920 rectangle
left after removing the uniform 80-unit margin. -/
def marginedInterior : Set (ℚ × ℚ) :=
  {p | 80 ≤ p.1 ∧ p.1 ≤ 1840 ∧ 80 ≤ p.2 ∧ p.2 ≤ 1000}

/-- The body letter-spacing of the PDF renderer: `-(bodyFontSize * 0.03)`
with `bodyFontSize = 22`. -/
def bodyLetterSpacingPdf : ℚ := -(22 * 0.03)

/-- The `\n`-separated paragraphs of the body text that survive the
`filter(line => line.trim())` step shared by every layout. -/
def bodyParagraphs (bodyText : String) : List Text :=
  (splitOnChar '\n' bodyText.data).filter (fun l => ¬ trim l = [])

/-- The flat list of wrapped body lines the PDF renderer accumulates
(`allWrappedLines`): each surviving paragraph is trimmed, split on spaces
and wrapped, and the lines are appended in order. -/
def pdfBodyLines (wB : Char → ℚ) (maxWidth : ℚ) (bodyText : String) : List Text :=
  ((bodyParagraphs bodyText).map
    (fun p => wrapTextExact wB (trim p) maxWidth bodyLetterSpacingPdf)).flatten

/-- A block of drawn text: the wrapped lines together with the y and x
coordinate at which each line's drawing loop starts (pdf-lib coordinates,
y measured from the page bottom), in line order. -/
structure TextBlock where
  lines : List Text
  ys : List ℚ
  xs : List ℚ
deriving DecidableEq, Repr

/-- Everything a PDF layout function draws on the page. -/
structure PdfSlide where
  headerText : Text
  headerX : ℚ
  headerY : ℚ
  title : TextBlock
  body : TextBlock
deriving DecidableEq, Repr

/-- The per-character drawing width of a line: the sum of the advance
widths plus one letter-spacing per character except the last (zero for an
empty line, since the loop body never runs). -/
def drawLineWidth (w : Char → ℚ) (letterSpacing : ℚ) : Text → ℚ
  | [] => 0
  | line => (line.map w).sum + ((line.length : ℚ) - 1) * letterSpacing

/-- `generateDefaultLayout`: header at the grid-snapped top-left, title
wrapped at width 960 flowing down from y = 760, body wrapped at width 960
flowing up from the bottom margin y = 80. -/
def generateDefaultLayout (wT wB : Char → ℚ) (s : SlideState) : PdfSlide :=
  let titleY := snapToGrid (1080 - 320)
  let titleX := snapToGrid 80 - 8
  let titleLines := wrapTextExact wT s.title.data 960 (-5)
  let bodyLines := pdfBodyLines wB 960 s.bodyText
  let n := bodyLines.length
  { headerText := s.header.data
    headerX := snapToGrid 80
    headerY := snapToGrid (1080 - 80)
    title :=
      { lines := titleLines
        ys := (List.range titleLines.length).map (fun (i : ℕ) => titleY - (i : ℚ) * 125)
        xs := titleLines.map (fun _ => titleX) }
    body :=
      { lines := bodyLines
        ys := (List.range n).map (fun i => snapToGrid 80 + ((n - 1 - i : ℕ) : ℚ) * 27)
        xs := bodyLines.map (fun _ => snapToGrid 80) } }

/-- Title and body blocks shared by the two quadrant layouts: the title is
anchored at the bottom edge of its quadrant and flows upward (line `i` of
`n` is drawn at `bottom + (n-1-i) * lineHeight`), and so is the body in
the diagonally opposite quadrant. -/
def quadrantBlocks (wT wB : Char → ℚ) (s : SlideState)
    (titleQ bodyQ : Quadrant) : TextBlock × TextBlock :=
  let titleX := snapToGrid 80 - 8
  let titleBottomY := (getQuadrantBounds titleQ).y
  let titleLines := wrapTextExact wT s.title.data 800 (-5)
  let nt := titleLines.length
  let bodyX := (getQuadrantBounds bodyQ).x + 40
  let bodyBottomY := (getQuadrantBounds bodyQ).y
  let bodyLines := pdfBodyLines wB 800 s.bodyText
  let nb := bodyLines.length
  ( { lines := titleLines
      ys := (List.range nt).map (fun i => titleBottomY + ((nt - 1 - i : ℕ) : ℚ) * 125)
      xs := titleLines.map (fun _ => titleX) }
  , { lines := bodyLines
      ys := (List.range nb).map (fun i => bodyBottomY + ((nb - 1 - i : ℕ) : ℚ) * 27)
      xs := bodyLines.map (fun _ => bodyX) } )

/-- `generateQuadrantLayout` (layout `quadrant-1-2`): title in quadrant 3
(bottom-left), body in quadrant 4 (bottom-right), both flowing upward from
their quadrant's bottom edge. -/
def generateQuadrantLayout (wT wB : Char → ℚ) (s : SlideState) : PdfSlide :=
  let blocks := quadrantBlocks wT wB s .three .four
  { headerText := s.header.data
    headerX := snapToGrid 80
    headerY := snapToGrid (1080 - 80)
    title := blocks.1
    body := blocks.2 }

/-- `generateQuadrantTopLayout` (layout `quadrant-1-2-top`): title in
quadrant 1 (top-left), body in quadrant 2 (top-right), both flowing upward
from their quadrant's bottom edge. -/
def generateQuadrantTopLayout (wT wB : Char → ℚ) (s : SlideState) : PdfSlide :=
  let blocks := quadrantBlocks wT wB s .one .two
  { headerText := s.header.data
    headerX := snapToGrid 80
    headerY := snapToGrid (1080 - 80)
    title := blocks.1
    body := blocks.2 }

/-- The bottom edge of the centered layout's title block: the combined
title + 80-unit gap + body block is centered on the page vertical midpoint
540, so `titleBottomY = 540 + totalHeight/2 - titleHeight`. -/
def centeredTitleBottomY (titleLineCount bodyLineCount : ℕ) : ℚ :=
  let titleHeight : ℚ := (titleLineCount : ℚ) * 125
  let bodyHeight : ℚ := (bodyLineCount : ℚ) * 27
  let totalContentHeight := titleHeight + 80 + bodyHeight
  540 + totalContentHeight / 2 - titleHeight

/-- `generateCenteredLayout` (layout `centered`): title at width 960
flowing upward from `titleBottomY`, body at width 960 flowing downward
from `titleBottomY - 80`; every line is horizontally centered from its
per-character drawn width. -/
def generateCenteredLayout (wT wB : Char → ℚ) (s : SlideState) : PdfSlide :=
  let titleLines := wrapTextExact wT s.title.data 960 (-5)
  let bodyLines := pdfBodyLines wB 960 s.bodyText
  let nt := titleLines.length
  let nb := bodyLines.length
  let titleBottomY := centeredTitleBottomY nt nb
  let bodyStartY := titleBottomY - 80
  { headerText := s.header.data
    headerX := snapToGrid 80
    headerY := snapToGrid (1080 - 80)
    title :=
      { lines := titleLines
        ys := (List.range nt).map (fun i => titleBottomY + ((nt - 1 - i : ℕ) : ℚ) * 125)
        xs := titleLines.map (fun line => (1920 - drawLineWidth wT (-5) line) / 2) }
    body :=
      { lines := bodyLines
        ys := (List.range nb).map (fun (i : ℕ) => bodyStartY - (i : ℚ) * 27)
        xs := bodyLines.map (fun line => (1920 - drawLineWidth wB bodyLetterSpacingPdf line) / 2) } }

/-- The layout dispatch of `generatePdf` / `generateMultiPagePdf`: three
recognized non-default layout strings, everything else (including
`quadrant-1-2-large`) falls through to the default layout. -/
def generatePdfSlide (wT wB : Char → ℚ) (s : SlideState) : PdfSlide :=
  if s.layout = "quadrant-1-2" then generateQuadrantLayout wT wB s
  else if s.layout = "quadrant-1-2-top" then generateQuadrantTopLayout wT wB s
  else if s.layout = "centered" then generateCenteredLayout wT wB s
  else generateDefaultLayout wT wB s

/-- The `LayoutStyles` record returned by the styled-markup layout
resolver (htmlSlideLayouts.ts). CSS position values are embedded as the
numbers they carry: `top`/`bottom`/`left` pixel offsets are `Option ℚ`
(present iff the source sets that CSS property), and the centered layout's
`left: 50%` + `translateX(-50%)` pair is the `centered` flags. -/
structure LayoutStyles where
  headerTop : ℚ
  headerLeft : ℚ
  titleTop : Option ℚ := none
  titleBottom : Option ℚ := none
  titleLeft : Option ℚ := none
  titleCentered : Bool := false
  titleMaxWidth : ℚ
  bodyTop : Option ℚ := none
  bodyBottom : Option ℚ := none
  bodyLeft : Option ℚ := none
  bodyCentered : Bool := false
  bodyMaxWidth : ℚ
  titleLines : List Text
  bodyLines : List (List Text)
  bodyUseBullets : Bool := false
  bodyLineHeight : Option ℚ := none
  bodyClassName : Option String := none
deriving DecidableEq, Repr

/-- `getDefaultLayoutStyles`: title at top 320 / left 72, width 960; body
anchored to bottom 80 / left 80, width 960. -/
def getDefaultLayoutStyles (s : SlideState) : LayoutStyles :=
  { headerTop := 80, headerLeft := 80
    titleTop := some 320, titleLeft := some 72, titleMaxWidth := 960
    bodyBottom := some 80, bodyLeft := some 80, bodyMaxWidth := 960
    titleLines := wrapText s.title 960 125 (-5)
    bodyLines := (bodyParagraphs s.bodyText).map
      (fun p => wrapTextC (approxMeasure 22) p 960 (-0.66)) }

/-- `getQuadrantLayoutStyles` (layout `quadrant-1-2`): title at bottom 460
/ left 72, width 800; body at bottom 460 / left 1000, width 800. -/
def getQuadrantLayoutStyles (s : SlideState) : LayoutStyles :=
  { headerTop := 80, headerLeft := 80
    titleBottom := some 460, titleLeft := some 72, titleMaxWidth := 800
    bodyBottom := some 460, bodyLeft := some (960 + 40), bodyMaxWidth := 800
    titleLines := wrapText s.title 800 125 (-5)
    bodyLines := (bodyParagraphs s.bodyText).map
      (fun p => wrapTextC (approxMeasure 22) p 800 (-0.66)) }

/-- `getQuadrantTopLayoutStyles` (layout `quadrant-1-2-top`): title at
bottom 100 / left 72, width 800; body at bottom 100 / left 1000, width 800. -/
def getQuadrantTopLayoutStyles (s : SlideState) : LayoutStyles :=
  { headerTop := 80, headerLeft := 80
    titleBottom := some 100, titleLeft := some 72, titleMaxWidth := 800
    bodyBottom := some 100, bodyLeft := some (960 + 40), bodyMaxWidth := 800
    titleLines := wrapText s.title 800 125 (-5)
    bodyLines := (bodyParagraphs s.bodyText).map
      (fun p => wrapTextC (approxMeasure 22) p 800 (-0.66)) }

/-- `getCenteredLayoutStyles` (layout `centered`): title bottom pinned at
the 540 midline, body top pinned at 620 (midline + 80 gap), both
horizontally centered, width 960. -/
def getCenteredLayoutStyles (s : SlideState) : LayoutStyles :=
  { headerTop := 80, headerLeft := 80
    titleBottom := some 540, titleCentered := true, titleMaxWidth := 960
    bodyTop := some (540 + 80), bodyCentered := true, bodyMaxWidth := 960
    titleLines := wrapText s.title 960 125 (-5)
    bodyLines := (bodyParagraphs s.bodyText).map
      (fun p => wrapTextC (approxMeasure 22) p 960 (-0.66)) }

/-- `getQuadrantLargeLayoutStyles` (layout `quadrant-1-2-large`): like the
quadrant layout but the body uses the 30px large style (42px line height,
letter-spacing −0.6) and renders as bullet items. -/
def getQuadrantLargeLayoutStyles (s : SlideState) : LayoutStyles :=
  { headerTop := 80, headerLeft := 80
    titleBottom := some 460, titleLeft := some 72, titleMaxWidth := 800
    bodyBottom := some 460, bodyLeft := some (960 + 40), bodyMaxWidth := 800
    titleLines := wrapText s.title 800 125 (-5)
    bodyLines := (bodyParagraphs s.bodyText).map
      (fun p => wrapTextC (approxMeasure 30) p 800 (-0.6))
    bodyUseBullets := true
    bodyLineHeight := some 42
    bodyClassName := some "slide-body-large" }

/-- `getLayoutStyles`: total dispatch over the layout string; every
unrecognized value falls through to the default layout. -/
def getLayoutStyles (s : SlideState) : LayoutStyles :=
  if s.layout = "title" then getDefaultLayoutStyles s
  else if s.layout = "quadrant-1-2" then getQuadrantLayoutStyles s
  else if s.layout = "quadrant-1-2-top" then getQuadrantTopLayoutStyles s
  else if s.layout = "centered" then getCenteredLayoutStyles s
  else if s.layout = "quadrant-1-2-large" then getQuadrantLargeLayoutStyles s
  else getDefaultLayoutStyles s

/-- `escapeHtml`, one character at a time. The source applies five global
replaces in sequence (`&`, `<`, `>`, `"`, `'`); since none of the
replacement strings contains a character replaced by a later pass, the
sequential replaces coincide with this simultaneous per-character map. -/
def escapeChar (c : Char) : Text :=
  if c = '&' then "&amp;".data
  else if c = '<' then "&lt;".data
  else if c = '>' then "&gt;".data
  else if c = '"' then "&quot;".data
  else if c = '\'' then "&#039;".data
  else [c]

/-- `escapeHtml` over a whole string. -/
def escapeHtml (t : Text) : Text := t.flatMap escapeChar

/-- The inner markup of the bullet list emitted by `generateSlideHtml`
when `bodyUseBullets` is set: one `<li>` element per surviving paragraph
of the body text, joined with no separator. -/
def bulletItemsHtml (bodyText : String) : Text :=
  (bodyParagraphs bodyText).flatMap
    (fun line => "<li>".data ++ escapeHtml line ++ "</li>".data)

/-- Count of (possibly overlapping) occurrences of a non-empty pattern. -/
def countOcc (p : Text) : Text → ℕ
  | [] => 0
  | c :: rest => (if p <+: c :: rest then 1 else 0) + countOcc p rest

/-- Modelled from the spec: the styled-markup renderer run under the
*exact* measurement strategy (spec §4.2 requires both strategies "behind
the same interface"; the source's `wrapText` only implements the
approximate one). The wrapped title lines use the per-layout max width of
`getLayoutStyles` with the exact per-character measurement `wT`. -/
def styledTitleLinesExact (wT : Char → ℚ) (s : SlideState) : List Text :=
  wrapTextExact wT s.title.data (getLayoutStyles s).titleMaxWidth (-5)

/-- Modelled from the spec: the styled-markup renderer's body lines under
the exact measurement strategy, one wrapped group per surviving paragraph,
at the per-layout max width and body letter-spacing of `getLayoutStyles`. -/
def styledBodyLinesExact (wB : Char → ℚ) (s : SlideState) : List (List Text) :=
  let ls : ℚ := if s.layout = "quadrant-1-2-large" then -0.6 else -0.66
  (bodyParagraphs s.bodyText).map
    (fun p => wrapTextExact wB p (getLayoutStyles s).bodyMaxWidth ls)

/-! ### General lemmas about the greedy wrapping loop -/

lemma splitOnChar_ne_nil (sep : Char) (s : Text) : splitOnChar sep s ≠ [] := by
  cases s with
  | nil => simp [splitOnChar]
  | cons c rest =>
    rw [splitOnChar]
    split
    · simp
    · cases h : splitOnChar sep rest <;> simp

lemma joinSp_cons_of_ne_nil (l : Text) (ls : List Text) (h : ls ≠ []) :
    joinSp (l :: ls) = l ++ ' ' :: joinSp ls := by
  cases ls with
  | nil => exact absurd rfl h
  | cons x xs => rfl

/-- Joining the space-split fields with single spaces restores the string. -/
lemma joinSp_splitOnChar (s : Text) : joinSp (splitOnChar ' ' s) = s := by
  induction s with
  | nil => rfl
  | cons c rest ih =>
    rw [splitOnChar]
    by_cases hc : c = ' '
    · rw [if_pos hc,
        joinSp_cons_of_ne_nil _ _ (splitOnChar_ne_nil ' ' rest), ih, hc]
      rfl
    · rw [if_neg hc]
      rcases h : splitOnChar ' ' rest with _ | ⟨w, ws⟩
      · exact absurd h (splitOnChar_ne_nil ' ' rest)
      · rw [h] at ih
        cases ws with
        | nil => simpa [joinSp] using congrArg (c :: ·) ih
        | cons x xs =>
          rw [joinSp_cons_of_ne_nil w (x :: xs) (by simp)] at ih
          rw [joinSp_cons_of_ne_nil (c :: w) (x :: xs) (by simp)]
          simpa using congrArg (c :: ·) ih

/-- With an empty accumulated line, the two branches of the loop body
coincide: the next word simply becomes the accumulated line (whether or
not it fits — an overflowing first word is kept, not pushed). -/
lemma wrapWords_nil_cons (m : Text → ℚ) (mw ls : ℚ) (w : Text) (rest : List Text) :
    wrapWords m mw ls [] (w :: rest) = wrapWords m mw ls w rest := by
  rw [wrapWords]
  simp

/-- Loop body with a non-empty accumulated line: accept the extended line
if it fits, otherwise emit the accumulated line and restart from the word. -/
lemma wrapWords_cons_of_ne (m : Text → ℚ) (mw ls : ℚ) {cur : Text}
    (h : cur ≠ []) (w : Text) (rest : List Text) :
    wrapWords m mw ls cur (w :: rest)
      = if lineWidth m ls (cur ++ ' ' :: w) ≤ mw then
          wrapWords m mw ls (cur ++ ' ' :: w) rest
        else cur :: wrapWords m mw ls w rest := by
  rw [wrapWords]
  simp [h]

/-- Every line emitted by the greedy loop either was accepted (so its
adjusted width is within bounds) or is an overflowing word taken
unmodified from the word list `W`. -/
lemma wrapWords_sound (m : Text → ℚ) (mw ls : ℚ) (W : List Text) :
    ∀ (ws : List Text) (cur : Text), (∀ w ∈ ws, w ∈ W) →
      (cur = [] ∨ lineWidth m ls cur ≤ mw ∨ cur ∈ W) →
      ∀ line ∈ wrapWords m mw ls cur ws, lineWidth m ls line ≤ mw ∨ line ∈ W := by
  intro ws
  induction ws with
  | nil =>
    intro cur _ hcur line hline
    rw [wrapWords] at hline
    split at hline
    · simp at hline
    · rename_i hne
      rw [List.mem_singleton] at hline
      subst hline
      rcases hcur with h | h | h
      · exact absurd h hne
      · exact Or.inl h
      · exact Or.inr h
  | cons w rest ih =>
    intro cur hws hcur line hline
    have hwW : w ∈ W := hws w (List.mem_cons_self w rest)
    have hrest : ∀ x ∈ rest, x ∈ W := fun x hx => hws x (List.mem_cons_of_mem w hx)
    by_cases hcur0 : cur = []
    · subst hcur0
      rw [wrapWords_nil_cons] at hline
      exact ih w hrest (Or.inr (Or.inr hwW)) line hline
    · rw [wrapWords_cons_of_ne m mw ls hcur0] at hline
      split at hline
      · rename_i hfit
        exact ih _ hrest (Or.inr (Or.inl hfit)) line hline
      · rcases List.mem_cons.mp hline with h | h
        · subst h
          rcases hcur with h' | h' | h'
          · exact absurd h' hcur0
          · exact Or.inl h'
          · exact Or.inr h'
        · exact ih w hrest (Or.inr (Or.inr hwW)) line h

/-- The greedy loop never emits an empty line (JS string truthiness guards
every push). -/
lemma wrapWords_ne_nil (m : Text → ℚ) (mw ls : ℚ) :
    ∀ (ws : List Text) (cur : Text), ∀ line ∈ wrapWords m mw ls cur ws, line ≠ [] := by
  intro ws
  induction ws with
  | nil =>
    intro cur line hline
    rw [wrapWords] at hline
    split at hline
    · simp at hline
    · rename_i hne
      rw [List.mem_singleton] at hline
      subst hline; exact hne
  | cons w rest ih =>
    intro cur line hline
    by_cases hcur0 : cur = []
    · subst hcur0
      rw [wrapWords_nil_cons] at hline
      exact ih w line hline
    · rw [wrapWords_cons_of_ne m mw ls hcur0] at hline
      split at hline
      · exact ih _ line hline
      · rcases List.mem_cons.mp hline with h | h
        · subst h; exact hcur0
        · exact ih w line h

/-- The greedy loop's output is non-empty whenever the accumulated line is. -/
lemma wrapWords_output_ne_nil (m : Text → ℚ) (mw ls : ℚ) :
    ∀ (ws : List Text) (cur : Text), cur ≠ [] → wrapWords m mw ls cur ws ≠ [] := by
  intro ws
  induction ws with
  | nil =>
    intro cur hcur
    rw [wrapWords, if_neg hcur]
    simp
  | cons w rest ih =>
    intro cur hcur
    rw [wrapWords_cons_of_ne m mw ls hcur]
    split
    · exact ih _ (by simp)
    · simp

/-- Joining the greedy loop's lines with single spaces restores the
accumulated line followed by the remaining words, provided every word is
non-empty. -/
lemma wrapWords_join (m : Text → ℚ) (mw ls : ℚ) :
    ∀ (ws : List Text) (cur : Text), (∀ w ∈ ws, w ≠ []) →
      joinSp (wrapWords m mw ls cur ws)
        = if cur = [] then joinSp ws else joinSp (cur :: ws) := by
  intro ws
  induction ws with
  | nil =>
    intro cur _
    rw [wrapWords]
    split
    · rename_i h; simp [h, joinSp]
    · simp [joinSp]
  | cons w rest ih =>
    intro cur hws
    have hw : w ≠ [] := hws w (List.mem_cons_self w rest)
    have hrest : ∀ x ∈ rest, x ≠ [] := fun x hx => hws x (List.mem_cons_of_mem w hx)
    by_cases hcur : cur = []
    · subst hcur
      rw [wrapWords_nil_cons, ih _ hrest, if_neg hw, if_pos rfl]
    · rw [wrapWords_cons_of_ne m mw ls hcur, if_neg hcur]
      split
      · rw [ih _ hrest, if_neg (by simp : ¬ (cur ++ ' ' :: w) = [])]
        cases rest with
        | nil => simp [joinSp]
        | cons x xs =>
          rw [joinSp_cons_of_ne_nil (cur ++ ' ' :: w) (x :: xs) (by simp),
            joinSp_cons_of_ne_nil cur (w :: x :: xs) (by simp),
            joinSp_cons_of_ne_nil w (x :: xs) (by simp)]
          simp
      · rw [joinSp_cons_of_ne_nil cur (wrapWords m mw ls w rest)
            (wrapWords_output_ne_nil m mw ls rest w hw),
          ih _ hrest, if_neg hw,
          joinSp_cons_of_ne_nil cur (w :: rest) (by simp)]

/-- Wrapping the empty string yields no lines: `"".split(' ')` is `[""]`,
the empty word leaves the accumulated line empty, and an empty accumulated
line is never pushed. -/
lemma wrapTextC_nil (m : Text → ℚ) (mw ls : ℚ) : wrapTextC m [] mw ls = [] := by
  rw [wrapTextC, show splitOnChar ' ' [] = [[]] from rfl, wrapWords_nil_cons,
    wrapWords, if_pos rfl]

/-- If every newline-delimited line of the body is blank after trimming,
no paragraph survives the filter. -/
lemma bodyParagraphs_eq_nil (bodyText : String)
    (h : ∀ p ∈ splitOnChar '\n' bodyText.data, trim p = []) :
    bodyParagraphs bodyText = [] := by
  rw [bodyParagraphs, List.filter_eq_nil_iff]
  intro p hp
  simpa using h p hp

/-- The PDF renderer's body letter-spacing `-(22 * 0.03)` equals the
styled resolver's literal `-0.66`. -/
lemma bodyLetterSpacingPdf_eq : bodyLetterSpacingPdf = -0.66 := by
  norm_num [bodyLetterSpacingPdf]

/-- When no surviving paragraph carries leading or trailing whitespace,
the PDF renderer's flat body lines coincide with the flattened
exact-strategy styled body wrap at the same max width. (Blank
newline-delimited lines are filtered out identically on both sides, so
only the surviving paragraphs need to be trim-clean.) -/
lemma pdfBodyLines_eq_untrimmed (wB : Char → ℚ) (mw : ℚ) (bodyText : String)
    (hTrim : ∀ p ∈ bodyParagraphs bodyText, trim p = p) :
    pdfBodyLines wB mw bodyText
      = ((bodyParagraphs bodyText).map (fun p => wrapTextExact wB p mw (-0.66))).flatten := by
  rw [pdfBodyLines]
  simp only [bodyLetterSpacingPdf_eq]
  congr 1
  apply List.map_congr_left
  intro p hp
  rw [hTrim p hp]

/-! ### Claims -/

/-- C1 (amended): for every slide content whose layout is not
`quadrant-1-2-large` and whose surviving body paragraphs (the non-blank
newline-delimited lines — blank lines are filtered identically by both
renderers and need no condition) carry no leading or trailing whitespace,
the exact PDF renderer and the styled-markup renderer under the exact
measurement strategy (same per-character width functions `wT`, `wB`)
produce identical wrapped title-line arrays and identical body-line
arrays. For `quadrant-1-2-large` the PDF dispatch falls back to the
default layout (title width 960 instead of 800), and the PDF body wrap
trims each paragraph while the styled wrap does not, so the claim as
stated fails in those two cases. -/
theorem c1_cross_renderer_line_breaks (wT wB : Char → ℚ) (s : SlideState)
    (hL : s.layout ≠ "quadrant-1-2-large")
    (hTrim : ∀ p ∈ bodyParagraphs s.bodyText, trim p = p) :
    (generatePdfSlide wT wB s).title.lines = styledTitleLinesExact wT s ∧
    (generatePdfSlide wT wB s).body.lines = (styledBodyLinesExact wB s).flatten := by
  by_cases h1 : s.layout = "quadrant-1-2"
  · constructor
    · simp [generatePdfSlide, h1, getLayoutStyles, styledTitleLinesExact,
        generateQuadrantLayout, quadrantBlocks, getQuadrantLayoutStyles]
    · simp [generatePdfSlide, h1, getLayoutStyles, styledBodyLinesExact,
        generateQuadrantLayout, quadrantBlocks, getQuadrantLayoutStyles]
      exact pdfBodyLines_eq_untrimmed wB 800 s.bodyText hTrim
  · by_cases h2 : s.layout = "quadrant-1-2-top"
    · constructor
      · simp [generatePdfSlide, h1, h2, getLayoutStyles, styledTitleLinesExact,
          generateQuadrantTopLayout, quadrantBlocks, getQuadrantTopLayoutStyles]
      · simp [generatePdfSlide, h1, h2, getLayoutStyles, styledBodyLinesExact,
          generateQuadrantTopLayout, quadrantBlocks, getQuadrantTopLayoutStyles]
        exact pdfBodyLines_eq_untrimmed wB 800 s.bodyText hTrim
    · by_cases h3 : s.layout = "centered"
      · constructor
        · simp [generatePdfSlide, h1, h2, h3, getLayoutStyles, styledTitleLinesExact,
            generateCenteredLayout, getCenteredLayoutStyles]
        · simp [generatePdfSlide, h1, h2, h3, getLayoutStyles, styledBodyLinesExact,
            generateCenteredLayout, getCenteredLayoutStyles]
          exact pdfBodyLines_eq_untrimmed wB 960 s.bodyText hTrim
      · by_cases h4 : s.layout = "title"
        · constructor
          · simp [generatePdfSlide, h1, h2, h3, h4, getLayoutStyles,
              styledTitleLinesExact, generateDefaultLayout, getDefaultLayoutStyles]
          · simp [generatePdfSlide, h1, h2, h3, h4, getLayoutStyles,
              styledBodyLinesExact, generateDefaultLayout, getDefaultLayoutStyles]
            exact pdfBodyLines_eq_untrimmed wB 960 s.bodyText hTrim
        · constructor
          · simp [generatePdfSlide, styledTitleLinesExact, getLayoutStyles,
              generateDefaultLayout, getDefaultLayoutStyles, h1, h2, h3, h4, hL]
          · simp [generatePdfSlide, styledBodyLinesExact, getLayoutStyles,
              generateDefaultLayout, getDefaultLayoutStyles, h1, h2, h3, h4, hL]
            exact pdfBodyLines_eq_untrimmed wB 960 s.bodyText hTrim

/-- C1 counterexample: on the `quadrant-1-2-large` layout the two
renderers disagree even under the same (constant 70) character-width
function: the PDF renderer has no large-quadrant branch and wraps the
title at the default width 960 (one line), while the styled resolver wraps
it at 800 (two lines). -/
theorem c1_counterexample :
    ¬ ((generatePdfSlide (fun _ => 70) (fun _ => 13)
          { header := "", title := "AAAAAAAAAAAA B", bodyText := "",
            layout := "quadrant-1-2-large" }).title.lines
        = styledTitleLinesExact (fun _ => 70)
          { header := "", title := "AAAAAAAAAAAA B", bodyText := "",
            layout := "quadrant-1-2-large" }) := by
  simp only [generatePdfSlide, styledTitleLinesExact, getLayoutStyles,
    getQuadrantLargeLayoutStyles, generateDefaultLayout, wrapTextExact, wrapTextC,
    wrapWords, splitOnChar, lineWidth, charSumMeasure]
  simp
  norm_num

/-- C1 witness: the amended theorem applied to a default-layout slide with
concrete width functions. -/
theorem c1_cross_renderer_line_breaks_witness :
    (({ header := "", title := "Hi", bodyText := "hello world",
        layout := "title" } : SlideState).layout ≠ "quadrant-1-2-large") ∧
    (∀ p ∈ bodyParagraphs
        ({ header := "", title := "Hi", bodyText := "hello world",
           layout := "title" } : SlideState).bodyText, trim p = p) ∧
    ((generatePdfSlide (fun _ => 70) (fun _ => 13)
        { header := "", title := "Hi", bodyText := "hello world",
          layout := "title" }).title.lines
      = styledTitleLinesExact (fun _ => 70)
        { header := "", title := "Hi", bodyText := "hello world", layout := "title" } ∧
     (generatePdfSlide (fun _ => 70) (fun _ => 13)
        { header := "", title := "Hi", bodyText := "hello world",
          layout := "title" }).body.lines
      = (styledBodyLinesExact (fun _ => 13)
        { header := "", title := "Hi", bodyText := "hello world",
          layout := "title" }).flatten) :=
  ⟨by decide, by decide,
    c1_cross_renderer_line_breaks (fun _ => 70) (fun _ => 13) _ (by decide) (by decide)⟩

/-- C6: for a slide whose layout is none of the five recognized values,
the styled-markup layout resolver and the PDF renderer (for any
character-width functions) each produce exactly the output they produce
for the `title` (TitleDefault) layout; the dispatch is total, so nothing
fails. (The styled-markup HTML renderer reads the layout only through
`getLayoutStyles`, so its output is likewise unchanged.) -/
theorem c6_unknown_layout_defaults (s : SlideState) (wT wB : Char → ℚ)
    (h : s.layout ∉ (["title", "quadrant-1-2", "quadrant-1-2-top", "centered",
      "quadrant-1-2-large"] : List String)) :
    getLayoutStyles s = getLayoutStyles { s with layout := "title" } ∧
    generatePdfSlide wT wB s = generatePdfSlide wT wB { s with layout := "title" } := by
  simp only [List.mem_cons, List.not_mem_nil, or_false, not_or] at h
  obtain ⟨h1, h2, h3, h4, h5⟩ := h
  constructor
  · rw [getLayoutStyles, if_neg h1, if_neg h2, if_neg h3, if_neg h4, if_neg h5,
      getLayoutStyles, if_pos rfl]
    simp [getDefaultLayoutStyles]
  · rw [generatePdfSlide, if_neg h2, if_neg h3, if_neg h4, generatePdfSlide,
      if_neg (by simp), if_neg (by simp), if_neg (by simp)]
    simp [generateDefaultLayout, pdfBodyLines]

/-- C6 witness: the dispatch at the unrecognized layout `avdelare`. -/
theorem c6_unknown_layout_defaults_witness :
    (({ header := "h", title := "Hi", bodyText := "x",
        layout := "avdelare" } : SlideState).layout
      ∉ (["title", "quadrant-1-2", "quadrant-1-2-top", "centered",
          "quadrant-1-2-large"] : List String)) ∧
    (getLayoutStyles { header := "h", title := "Hi", bodyText := "x", layout := "avdelare" }
        = getLayoutStyles { header := "h", title := "Hi", bodyText := "x", layout := "title" } ∧
      generatePdfSlide (fun _ => 70) (fun _ => 13)
          { header := "h", title := "Hi", bodyText := "x", layout := "avdelare" }
        = generatePdfSlide (fun _ => 70) (fun _ => 13)
          { header := "h", title := "Hi", bodyText := "x", layout := "title" }) :=
  ⟨by decide, c6_unknown_layout_defaults _ (fun _ => 70) (fun _ => 13) (by decide)⟩

/-- If every character is at least as wide as the negative letter-spacing,
a list of characters is at least `-letterSpacing` per character wide. -/
lemma sum_map_ge_length_mul {w : Char → ℚ} {ls : ℚ} (hw : ∀ c, -ls ≤ w c) :
    ∀ t : Text, -ls * t.length ≤ (t.map w).sum := by
  intro t
  induction t with
  | nil => simp
  | cons c cs ih =>
    rw [List.map_cons, List.sum_cons, List.length_cons]
    push_cast
    have h := hw c
    linarith

/-- Under the same character-width condition, appending ` word` to a line
never decreases its adjusted width. -/
lemma lineWidth_le_append_left {w : Char → ℚ} {ls : ℚ} (hw : ∀ c, -ls ≤ w c)
    (a b : Text) :
    lineWidth (charSumMeasure w) ls a
      ≤ lineWidth (charSumMeasure w) ls (a ++ ' ' :: b) := by
  unfold lineWidth charSumMeasure
  rw [List.map_append, List.sum_append, List.map_cons, List.sum_cons,
    List.length_append, List.length_cons]
  push_cast
  have h1 := sum_map_ge_length_mul hw b
  have h2 := hw ' '
  linarith

/-- Under the same character-width condition, prepending `line ` to a word
never decreases the adjusted width below the word's own. -/
lemma lineWidth_le_append_right {w : Char → ℚ} {ls : ℚ} (hw : ∀ c, -ls ≤ w c)
    (a b : Text) :
    lineWidth (charSumMeasure w) ls b
      ≤ lineWidth (charSumMeasure w) ls (a ++ ' ' :: b) := by
  unfold lineWidth charSumMeasure
  rw [List.map_append, List.sum_append, List.map_cons, List.sum_cons,
    List.length_append, List.length_cons]
  push_cast
  have h1 := sum_map_ge_length_mul hw a
  have h2 := hw ' '
  linarith

/-- An overflowing accumulated line is emitted unchanged: every further
test line contains it and therefore also overflows. Needs each character
to be at least `-letterSpacing` wide. -/
lemma wrapWords_self_overflow {w : Char → ℚ} {mw ls : ℚ} (hw : ∀ c, -ls ≤ w c) :
    ∀ (ws : List Text) (cur : Text), cur ≠ [] →
      mw < lineWidth (charSumMeasure w) ls cur →
      cur ∈ wrapWords (charSumMeasure w) mw ls cur ws := by
  intro ws
  induction ws with
  | nil =>
    intro cur hne hov
    rw [wrapWords, if_neg hne]
    exact List.mem_singleton.mpr rfl
  | cons w2 rest ih =>
    intro cur hne hov
    rw [wrapWords_cons_of_ne _ _ _ hne,
      if_neg (not_le.mpr (lt_of_lt_of_le hov (lineWidth_le_append_left hw cur w2)))]
    exact List.mem_cons_self _ _

/-- Every non-empty input word whose own adjusted width exceeds the max
width is emitted alone as an output line (never dropped), provided each
character is at least `-letterSpacing` wide. -/
lemma wrapWords_overflow_emitted {w : Char → ℚ} {mw ls : ℚ} (hw : ∀ c, -ls ≤ w c) :
    ∀ (ws : List Text) (cur : Text), ∀ word ∈ ws, word ≠ [] →
      mw < lineWidth (charSumMeasure w) ls word →
      word ∈ wrapWords (charSumMeasure w) mw ls cur ws := by
  intro ws
  induction ws with
  | nil =>
    intro cur word hmem
    exact absurd hmem (List.not_mem_nil word)
  | cons w2 rest ih =>
    intro cur word hmem hne hov
    rcases List.mem_cons.mp hmem with rfl | hmem2
    · by_cases hcur : cur = []
      · subst hcur
        rw [wrapWords_nil_cons]
        exact wrapWords_self_overflow hw rest word hne hov
      · rw [wrapWords_cons_of_ne _ _ _ hcur,
          if_neg (not_le.mpr (lt_of_lt_of_le hov (lineWidth_le_append_right hw cur word)))]
        exact List.mem_cons_of_mem _ (wrapWords_self_overflow hw rest word hne hov)
    · by_cases hcur : cur = []
      · subst hcur
        rw [wrapWords_nil_cons]
        exact ih w2 word hmem2 hne hov
      · rw [wrapWords_cons_of_ne _ _ _ hcur]
        split
        · exact ih _ word hmem2 hne hov
        · exact List.mem_cons_of_mem _ (ih w2 word hmem2 hne hov)

/-- C2 (amended): for every text, max width, per-character width function
and letter-spacing, every line produced by the greedy wrapper either
satisfies the width bound `sum(charWidth) + (len − 1)·letterSpacing ≤
maxWidth`, or is a single word of the input (an element of the space-split
word list, hence never split mid-word) whose own adjusted width already
exceeds `maxWidth`. Moreover — provided every character is at least as
wide as the negative letter-spacing, which holds for any non-negative
letter-spacing and for real font metrics against the source's −5 / −0.66
spacings — every non-empty input word whose own adjusted width exceeds
`maxWidth` is emitted alone as one of the output lines: never split
mid-word and never dropped. (Without that proviso the emission can fail;
see the counterexample.) -/
theorem c2_width_bound (w : Char → ℚ) (text : String) (maxWidth letterSpacing : ℚ) :
    (∀ line ∈ wrapTextExact w text.data maxWidth letterSpacing,
      (line.map w).sum + ((line.length : ℚ) - 1) * letterSpacing ≤ maxWidth ∨
      (line ∈ splitOnChar ' ' text.data ∧
        maxWidth < (line.map w).sum + ((line.length : ℚ) - 1) * letterSpacing)) ∧
    ((∀ c, -letterSpacing ≤ w c) →
      ∀ word ∈ splitOnChar ' ' text.data, word ≠ [] →
        maxWidth < (word.map w).sum + ((word.length : ℚ) - 1) * letterSpacing →
        word ∈ wrapTextExact w text.data maxWidth letterSpacing) := by
  constructor
  · intro line hline
    have h := wrapWords_sound (charSumMeasure w) maxWidth letterSpacing
      (splitOnChar ' ' text.data) (splitOnChar ' ' text.data) []
      (fun _ hx => hx) (Or.inl rfl) line hline
    rcases h with h | h
    · exact Or.inl (by simpa [lineWidth, charSumMeasure] using h)
    · rcases le_or_lt ((line.map w).sum + ((line.length : ℚ) - 1) * letterSpacing)
        maxWidth with h2 | h2
      · exact Or.inl h2
      · exact Or.inr ⟨h, h2⟩
  · intro hw word hmem hne hov
    have hov2 : maxWidth < lineWidth (charSumMeasure w) letterSpacing word := by
      simpa [lineWidth, charSumMeasure] using hov
    exact wrapWords_overflow_emitted hw (splitOnChar ' ' text.data) [] word hmem hne hov2

/-- C2 counterexample: with letter-spacing so negative that appending a
word shrinks the adjusted width (char width 10, letter-spacing −100,
max width −200), the word `"aaa"` has adjusted width −170 > −200 — it
overflows — yet the wrapper merges it with the next word into the single
fitting line `"aaa bbbb"`; the overflowing word is *not* emitted alone, so
the claim as stated (for every letter-spacing) fails. -/
theorem c2_counterexample :
    ("aaa".data ∈ splitOnChar ' ' "aaa bbbb".data) ∧
    ((-200 : ℚ) < ("aaa".data.map (fun _ => (10 : ℚ))).sum +
      (("aaa".data.length : ℚ) - 1) * (-100)) ∧
    wrapTextExact (fun _ => 10) "aaa bbbb".data (-200) (-100) = ["aaa bbbb".data] ∧
    "aaa".data ∉ wrapTextExact (fun _ => 10) "aaa bbbb".data (-200) (-100) := by
  have heq : wrapTextExact (fun _ => (10 : ℚ)) "aaa bbbb".data (-200) (-100)
      = ["aaa bbbb".data] := by
    simp [wrapTextExact, wrapTextC, wrapWords, splitOnChar, lineWidth, charSumMeasure]
    norm_num
  refine ⟨by decide, by norm_num, heq, ?_⟩
  rw [heq]
  decide

/-- C2 witness: the single overflowing word `"Hi"` (width 2 over max width
0, zero letter-spacing) satisfies the bound disjunction via overflow and
is emitted alone. -/
theorem c2_width_bound_witness :
    (("Hi".data ∈ wrapTextExact (fun _ => 1) "Hi".data 0 0) ∧
      (("Hi".data.map (fun _ => (1 : ℚ))).sum + (("Hi".data.length : ℚ) - 1) * 0 ≤ 0 ∨
        ("Hi".data ∈ splitOnChar ' ' "Hi".data ∧
          (0 : ℚ) < ("Hi".data.map (fun _ => (1 : ℚ))).sum +
            (("Hi".data.length : ℚ) - 1) * 0))) ∧
    ((∀ c : Char, -(0 : ℚ) ≤ (fun _ => (1 : ℚ)) c) ∧
      "Hi".data ∈ splitOnChar ' ' "Hi".data ∧ "Hi".data ≠ [] ∧
      (0 : ℚ) < ("Hi".data.map (fun _ => (1 : ℚ))).sum +
        (("Hi".data.length : ℚ) - 1) * 0 ∧
      "Hi".data ∈ wrapTextExact (fun _ => 1) "Hi".data 0 0) := by
  have hw : ∀ c : Char, -(0 : ℚ) ≤ (fun _ => (1 : ℚ)) c := fun _ => by norm_num
  have hov : (0 : ℚ) < ("Hi".data.map (fun _ => (1 : ℚ))).sum +
      (("Hi".data.length : ℚ) - 1) * 0 := by
    simp
  have hmem : "Hi".data ∈ wrapTextExact (fun _ => (1 : ℚ)) "Hi".data 0 0 := by
    simp [wrapTextExact, wrapTextC, wrapWords, splitOnChar, lineWidth, charSumMeasure]
  exact ⟨⟨hmem, (c2_width_bound (fun _ => 1) "Hi" 0 0).1 "Hi".data hmem⟩,
    ⟨hw, by decide, by decide, hov,
      (c2_width_bound (fun _ => 1) "Hi" 0 0).2 hw "Hi".data (by decide) (by decide) hov⟩⟩

/-- C3: the four quadrant rectangles have pairwise disjoint interiors,
their union is exactly the 1760 × 920 margined interior of the 1920 × 1080
page, and quadrants 1, 2 form the top row (left, right; bottom edge at
y = 540 in pdf-lib's bottom-up coordinates) while 3, 4 form the bottom row. -/
theorem c3_quadrant_partition :
    (∀ i j : Quadrant, i ≠ j →
      openRect (getQuadrantBounds i) ∩ openRect (getQuadrantBounds j) = ∅) ∧
    (⋃ i : Quadrant, closedRect (getQuadrantBounds i)) = marginedInterior ∧
    ((getQuadrantBounds .one).x = 80 ∧ (getQuadrantBounds .one).y = 540) ∧
    ((getQuadrantBounds .two).x = 960 ∧ (getQuadrantBounds .two).y = 540) ∧
    ((getQuadrantBounds .three).x = 80 ∧ (getQuadrantBounds .three).y = 80) ∧
    ((getQuadrantBounds .four).x = 960 ∧ (getQuadrantBounds .four).y = 80) := by
  refine ⟨?_, ?_, ⟨rfl, by norm_num [getQuadrantBounds]⟩,
    ⟨by norm_num [getQuadrantBounds], by norm_num [getQuadrantBounds]⟩,
    ⟨rfl, rfl⟩, ⟨by norm_num [getQuadrantBounds], rfl⟩⟩
  · intro i j hij
    apply Set.eq_empty_iff_forall_not_mem.mpr
    rintro ⟨px, py⟩ ⟨h1, h2⟩
    cases i <;> cases j <;> first
      | exact absurd rfl hij
      | (simp only [getQuadrantBounds, openRect, Set.mem_setOf_eq] at h1 h2
         obtain ⟨a1, a2, a3, a4⟩ := h1
         obtain ⟨b1, b2, b3, b4⟩ := h2
         linarith)
  · ext ⟨px, py⟩
    simp only [Set.mem_iUnion, marginedInterior, Set.mem_setOf_eq]
    constructor
    · rintro ⟨i, hi⟩
      cases i <;>
        (simp only [closedRect, getQuadrantBounds, Set.mem_setOf_eq] at hi
         obtain ⟨h1, h2, h3, h4⟩ := hi
         exact ⟨by linarith, by linarith, by linarith, by linarith⟩)
    · rintro ⟨h1, h2, h3, h4⟩
      by_cases hx : px ≤ 960 <;> by_cases hy : py ≤ 540
      · exact ⟨.three, by
          simp only [closedRect, getQuadrantBounds, Set.mem_setOf_eq]
          exact ⟨by linarith, by linarith, by linarith, by linarith⟩⟩
      · exact ⟨.one, by
          simp only [closedRect, getQuadrantBounds, Set.mem_setOf_eq]
          exact ⟨by linarith, by linarith, by linarith, by linarith⟩⟩
      · exact ⟨.four, by
          simp only [closedRect, getQuadrantBounds, Set.mem_setOf_eq]
          exact ⟨by linarith, by linarith, by linarith, by linarith⟩⟩
      · exact ⟨.two, by
          simp only [closedRect, getQuadrantBounds, Set.mem_setOf_eq]
          exact ⟨by linarith, by linarith, by linarith, by linarith⟩⟩

/-- C3 witness: interiors of quadrants 1 and 2 are disjoint. -/
theorem c3_quadrant_partition_witness :
    (Quadrant.one ≠ Quadrant.two) ∧
    openRect (getQuadrantBounds .one) ∩ openRect (getQuadrantBounds .two) = ∅ :=
  ⟨by decide, c3_quadrant_partition.1 .one .two (by decide)⟩

/-- C4 (amended): the exact PDF renderer's centered layout satisfies the
stated equations: with `nt` wrapped title lines and `nb` wrapped body
lines, the title block's bottom line is drawn at
`titleBottom = 540 + (nt·125 + 80 + nb·27)/2 − nt·125` (it is the least y
of the title block, which flows upward from it) and the body's first line
at `titleBottom − 80`. The styled-markup resolver does *not* compute these
equations: it pins the title's CSS bottom at the 540 midline and the
body's CSS top at 620 regardless of the block heights. -/
theorem c4_centered_block_equations (wT wB : Char → ℚ) (s : SlideState)
    (nt nb : ℕ) (tB : ℚ)
    (hnt : nt = (generateCenteredLayout wT wB s).title.lines.length)
    (hnb : nb = (generateCenteredLayout wT wB s).body.lines.length)
    (htB : tB = 540 + ((nt : ℚ) * 125 + 80 + (nb : ℚ) * 27) / 2 - (nt : ℚ) * 125) :
    (nt ≠ 0 →
      tB ∈ (generateCenteredLayout wT wB s).title.ys ∧
      ∀ y ∈ (generateCenteredLayout wT wB s).title.ys, tB ≤ y) ∧
    (nb ≠ 0 →
      (generateCenteredLayout wT wB s).body.ys.head? = some (tB - 80)) ∧
    (getCenteredLayoutStyles s).titleBottom = some 540 ∧
    (getCenteredLayoutStyles s).bodyTop = some 620 := by
  have hform : tB = centeredTitleBottomY nt nb := by
    rw [htB, centeredTitleBottomY]
  have hys : (generateCenteredLayout wT wB s).title.ys
      = (List.range nt).map (fun i =>
          centeredTitleBottomY nt nb + ((nt - 1 - i : ℕ) : ℚ) * 125) := by
    rw [hnt, hnb]; rfl
  have hys2 : (generateCenteredLayout wT wB s).body.ys
      = (List.range nb).map (fun (i : ℕ) =>
          (centeredTitleBottomY nt nb - 80) - (i : ℚ) * 27) := by
    rw [hnt, hnb]; rfl
  refine ⟨?_, ?_, rfl, by norm_num [getCenteredLayoutStyles]⟩
  · intro hne
    constructor
    · rw [hys, hform]
      refine List.mem_map.mpr ⟨nt - 1, List.mem_range.mpr (by omega), ?_⟩
      have h0 : nt - 1 - (nt - 1) = 0 := by omega
      rw [h0]
      simp
    · intro y hy
      rw [hys] at hy
      obtain ⟨i, _, rfl⟩ := List.mem_map.mp hy
      rw [hform]
      have hnn : (0 : ℚ) ≤ ((nt - 1 - i : ℕ) : ℚ) * 125 := by positivity
      linarith
  · intro hne
    rw [hys2]
    cases nb with
    | zero => exact absurd rfl hne
    | succ k =>
      rw [List.range_succ_eq_map, List.map_cons, List.head?_cons, hform]
      norm_num

/-- C4 counterexample: on a slide whose title wraps to one line and whose
body wraps to one line, the styled resolver's title bottom is 540, but the
claimed equation gives 540 + (125 + 80 + 27)/2 − 125 = 531; the styled
resolver does not satisfy the stated equations. -/
theorem c4_counterexample :
    (getCenteredLayoutStyles
        { header := "", title := "Hi", bodyText := "x", layout := "centered" }).titleBottom
      ≠ some (540 +
          (((getCenteredLayoutStyles
              { header := "", title := "Hi", bodyText := "x",
                layout := "centered" }).titleLines.length : ℚ) * 125 + 80 +
            ((getCenteredLayoutStyles
              { header := "", title := "Hi", bodyText := "x",
                layout := "centered" }).bodyLines.flatten.length : ℚ) * 27) / 2 -
          ((getCenteredLayoutStyles
              { header := "", title := "Hi", bodyText := "x",
                layout := "centered" }).titleLines.length : ℚ) * 125) := by
  have hbp : bodyParagraphs "x" = [['x']] := by decide
  simp only [getCenteredLayoutStyles, hbp]
  simp [wrapText, wrapTextC, wrapWords, splitOnChar, lineWidth, approxMeasure,
    approxCharWidth]
  norm_num

/-- C4 witness: the amended theorem applied to a one-line title and
one-line body with the zero width functions (both blocks wrap to a single
line, so `titleBottom = 531`). -/
theorem c4_centered_block_equations_witness :
    (1 = (generateCenteredLayout (fun _ => 0) (fun _ => 0)
        { header := "", title := "Hi", bodyText := "x", layout := "centered" }).title.lines.length) ∧
    (1 = (generateCenteredLayout (fun _ => 0) (fun _ => 0)
        { header := "", title := "Hi", bodyText := "x", layout := "centered" }).body.lines.length) ∧
    ((531 : ℚ) = 540 + ((1 : ℕ) * 125 + 80 + ((1 : ℕ) : ℚ) * 27) / 2 - ((1 : ℕ) : ℚ) * 125) ∧
    ((1 ≠ 0 →
        (531 : ℚ) ∈ (generateCenteredLayout (fun _ => 0) (fun _ => 0)
          { header := "", title := "Hi", bodyText := "x", layout := "centered" }).title.ys ∧
        ∀ y ∈ (generateCenteredLayout (fun _ => 0) (fun _ => 0)
          { header := "", title := "Hi", bodyText := "x", layout := "centered" }).title.ys,
          (531 : ℚ) ≤ y) ∧
      (1 ≠ 0 →
        (generateCenteredLayout (fun _ => 0) (fun _ => 0)
          { header := "", title := "Hi", bodyText := "x", layout := "centered" }).body.ys.head?
          = some ((531 : ℚ) - 80)) ∧
      (getCenteredLayoutStyles
        { header := "", title := "Hi", bodyText := "x", layout := "centered" }).titleBottom = some 540 ∧
      (getCenteredLayoutStyles
        { header := "", title := "Hi", bodyText := "x", layout := "centered" }).bodyTop = some 620) := by
  have h1 : (1 : ℕ) = (generateCenteredLayout (fun _ => 0) (fun _ => 0)
      { header := "", title := "Hi", bodyText := "x", layout := "centered" }).title.lines.length := by
    simp [generateCenteredLayout, wrapTextExact, wrapTextC, wrapWords, splitOnChar,
      lineWidth, charSumMeasure]
  have h2 : (1 : ℕ) = (generateCenteredLayout (fun _ => 0) (fun _ => 0)
      { header := "", title := "Hi", bodyText := "x", layout := "centered" }).body.lines.length := by
    simp [generateCenteredLayout, pdfBodyLines, bodyParagraphs, wrapTextExact, wrapTextC,
      wrapWords, splitOnChar, lineWidth, charSumMeasure, trim, trimLeft, bodyLetterSpacingPdf]
  have h3 : (531 : ℚ) = 540 + ((1 : ℕ) * 125 + 80 + ((1 : ℕ) : ℚ) * 27) / 2 - ((1 : ℕ) : ℚ) * 125 := by
    norm_num
  exact ⟨h1, h2, h3, c4_centered_block_equations (fun _ => 0) (fun _ => 0) _ 1 1 531 h1 h2 h3⟩

/-- C5: the PDF renderer anchors the quadrant-layout titles at the floor
of their assigned quadrant (y = 80 for quadrant 3's `quadrant-1-2`,
y = 540 for quadrant 1's `quadrant-1-2-top`), but the styled resolver
emits fixed CSS bottom offsets 460 and 100 instead, so the two renderers'
anchors disagree — the styled values contradict the source's own comments
placing the titles inside their quadrants. Evaluation at the failing
input, title `"Hi"`. -/
theorem c5_quadrant_anchor_divergence :
    (generateQuadrantTopLayout (fun _ => 70) (fun _ => 13)
        { header := "", title := "Hi", bodyText := "",
          layout := "quadrant-1-2-top" }).title.ys = [540] ∧
    (getQuadrantBounds .one).y = 540 ∧
    (getQuadrantTopLayoutStyles
        { header := "", title := "Hi", bodyText := "",
          layout := "quadrant-1-2-top" }).titleBottom = some 100 ∧
    ((100 : ℚ) ≠ 540) ∧
    (generateQuadrantLayout (fun _ => 70) (fun _ => 13)
        { header := "", title := "Hi", bodyText := "",
          layout := "quadrant-1-2" }).title.ys = [80] ∧
    (getQuadrantBounds .three).y = 80 ∧
    (getQuadrantLayoutStyles
        { header := "", title := "Hi", bodyText := "",
          layout := "quadrant-1-2" }).titleBottom = some 460 ∧
    ((460 : ℚ) ≠ 80) := by
  refine ⟨?_, by norm_num [getQuadrantBounds], rfl, by norm_num, ?_,
    rfl, rfl, by norm_num⟩
  · simp [generateQuadrantTopLayout, quadrantBlocks, getQuadrantBounds, wrapTextExact,
      wrapTextC, wrapWords, splitOnChar, lineWidth, charSumMeasure]
    norm_num
  · simp [generateQuadrantLayout, quadrantBlocks, getQuadrantBounds, wrapTextExact,
      wrapTextC, wrapWords, splitOnChar, lineWidth, charSumMeasure]

/-- C7: for every layout (in both the styled-markup resolver and the PDF
renderer, for any character-width functions), an empty title wraps to zero
lines, and a body whose newline-delimited lines are all blank after
trimming produces zero body lines — never an error. -/
theorem c7_empty_fields (s : SlideState) (wT wB : Char → ℚ) :
    (s.title = "" →
      (getLayoutStyles s).titleLines = [] ∧
      (generatePdfSlide wT wB s).title.lines = []) ∧
    ((∀ p ∈ splitOnChar '\n' s.bodyText.data, trim p = []) →
      (getLayoutStyles s).bodyLines = [] ∧
      (generatePdfSlide wT wB s).body.lines = []) := by
  constructor
  · intro h
    have hd : s.title.data = [] := by rw [h]
    constructor
    · unfold getLayoutStyles getDefaultLayoutStyles getQuadrantLayoutStyles
        getQuadrantTopLayoutStyles getCenteredLayoutStyles getQuadrantLargeLayoutStyles
      split_ifs <;> simp [wrapText, hd, wrapTextC_nil]
    · unfold generatePdfSlide generateDefaultLayout generateQuadrantLayout
        generateQuadrantTopLayout generateCenteredLayout quadrantBlocks
      split_ifs <;> simp [wrapTextExact, hd, wrapTextC_nil]
  · intro h
    have hp := bodyParagraphs_eq_nil s.bodyText h
    constructor
    · unfold getLayoutStyles getDefaultLayoutStyles getQuadrantLayoutStyles
        getQuadrantTopLayoutStyles getCenteredLayoutStyles getQuadrantLargeLayoutStyles
      split_ifs <;> simp [hp]
    · unfold generatePdfSlide generateDefaultLayout generateQuadrantLayout
        generateQuadrantTopLayout generateCenteredLayout quadrantBlocks
      split_ifs <;> simp [pdfBodyLines, hp]

/-- C7 witness: the empty slide on the centered layout. -/
theorem c7_empty_fields_witness :
    (({ header := "", title := "", bodyText := " \n ", layout := "centered" } : SlideState).title = "" ∧
      (getLayoutStyles { header := "", title := "", bodyText := " \n ", layout := "centered" }).titleLines = [] ∧
      (generatePdfSlide (fun _ => 0) (fun _ => 0)
        { header := "", title := "", bodyText := " \n ", layout := "centered" }).title.lines = []) ∧
    ((∀ p ∈ splitOnChar '\n' (" \n " : String).data, trim p = []) ∧
      (getLayoutStyles { header := "", title := "", bodyText := " \n ", layout := "centered" }).bodyLines = [] ∧
      (generatePdfSlide (fun _ => 0) (fun _ => 0)
        { header := "", title := "", bodyText := " \n ", layout := "centered" }).body.lines = []) := by
  refine ⟨⟨rfl, ?_⟩, ⟨by decide, ?_⟩⟩
  · exact (c7_empty_fields _ (fun _ => 0) (fun _ => 0)).1 rfl
  · exact (c7_empty_fields _ (fun _ => 0) (fun _ => 0)).2 (by decide)

lemma not_mem_lt_escapeChar (c : Char) : '<' ∉ escapeChar c := by
  rw [escapeChar]
  split_ifs with h1 h2 h3 h4 h5
  · decide
  · decide
  · decide
  · decide
  · decide
  · simp only [List.mem_singleton]
    exact fun h => h2 h.symm

/-- Escaped text never contains a literal `<`. -/
lemma not_mem_lt_escapeHtml (t : Text) : '<' ∉ escapeHtml t := by
  rw [escapeHtml]
  intro h
  obtain ⟨c, _, hc⟩ := List.mem_flatMap.mp h
  exact not_mem_lt_escapeChar c hc

/-- A character other than `<` at the head cannot start a `<li>` marker. -/
lemma countOcc_li_cons_ne {c : Char} (hc : c ≠ '<') (t : Text) :
    countOcc "<li>".data (c :: t) = countOcc "<li>".data t := by
  rw [countOcc]
  have hnp : ¬ ("<li>".data <+: c :: t) := by
    intro hp
    obtain ⟨u, hu⟩ := hp
    rw [show ("<li>".data : List Char) = '<' :: "li>".data from rfl,
      List.cons_append] at hu
    injection hu with h1 _
    exact hc h1.symm
  rw [if_neg hnp, Nat.zero_add]

/-- Text free of `<` contributes no `<li>` markers. -/
lemma countOcc_li_append_of_no_lt {e : Text} (he : '<' ∉ e) (t : Text) :
    countOcc "<li>".data (e ++ t) = countOcc "<li>".data t := by
  induction e with
  | nil => rfl
  | cons c cs ih =>
    have hc : c ≠ '<' := fun h => he (List.mem_cons.mpr (Or.inl h.symm))
    have hcs : '<' ∉ cs := fun h => he (List.mem_cons_of_mem _ h)
    rw [List.cons_append, countOcc_li_cons_ne hc, ih hcs]

/-- One `<li>…</li>` element whose content is free of `<` contributes
exactly one `<li>` marker. -/
lemma countOcc_li_item (e t : Text) (he : '<' ∉ e) :
    countOcc "<li>".data (("<li>".data ++ e ++ "</li>".data) ++ t)
      = 1 + countOcc "<li>".data t := by
  have h1 : (("<li>".data ++ e ++ "</li>".data) ++ t)
      = '<' :: 'l' :: 'i' :: '>' :: (e ++ ("</li>".data ++ t)) := by
    simp [List.append_assoc]
  have hp : ("<li>".data <+: '<' :: 'l' :: 'i' :: '>' :: (e ++ ("</li>".data ++ t))) :=
    ⟨e ++ ("</li>".data ++ t), rfl⟩
  rw [h1, countOcc, if_pos hp, countOcc_li_cons_ne (by decide),
    countOcc_li_cons_ne (by decide), countOcc_li_cons_ne (by decide),
    countOcc_li_append_of_no_lt he,
    show (("</li>".data : List Char) ++ t) = '<' :: '/' :: 'l' :: 'i' :: '>' :: t from rfl]
  have hnp : ¬ ("<li>".data <+: '<' :: '/' :: 'l' :: 'i' :: '>' :: t) := by
    intro hp2
    obtain ⟨u, hu⟩ := hp2
    rw [show ("<li>".data : List Char) = '<' :: 'l' :: "i>".data from rfl] at hu
    simp at hu
  rw [countOcc, if_neg hnp, Nat.zero_add, countOcc_li_cons_ne (by decide),
    countOcc_li_cons_ne (by decide), countOcc_li_cons_ne (by decide),
    countOcc_li_cons_ne (by decide)]

/-- The bullet list built from `n` paragraphs carries exactly `n` `<li>`
markers. -/
lemma countOcc_li_flatMap (ps : List Text) :
    countOcc "<li>".data
      (ps.flatMap (fun line => "<li>".data ++ escapeHtml line ++ "</li>".data))
      = ps.length := by
  induction ps with
  | nil => rfl
  | cons p ps ih =>
    rw [List.flatMap_cons, countOcc_li_item _ _ (not_mem_lt_escapeHtml p), ih,
      List.length_cons]
    omega

/-- C8: on the `quadrant-1-2-large` layout the resolver switches the body
to bulleted rendering, and the emitted bullet-list markup contains exactly
one `<li>` marker per non-empty newline-delimited paragraph of the body —
independent of how many wrapped lines any paragraph produces (the marker
construction never consults the wrapper). -/
theorem c8_bullet_count (s : SlideState) (h : s.layout = "quadrant-1-2-large") :
    (getLayoutStyles s).bodyUseBullets = true ∧
    countOcc "<li>".data (bulletItemsHtml s.bodyText)
      = (bodyParagraphs s.bodyText).length := by
  constructor
  · simp [getLayoutStyles, h, getQuadrantLargeLayoutStyles]
  · rw [bulletItemsHtml, countOcc_li_flatMap]

/-- C8 witness: a body with three non-empty paragraphs (one of which
contains a space and one blank line that is dropped). -/
theorem c8_bullet_count_witness :
    (({ header := "", title := "", bodyText := "a\nb b\n \nc",
        layout := "quadrant-1-2-large" } : SlideState).layout = "quadrant-1-2-large") ∧
    ((getLayoutStyles
        { header := "", title := "", bodyText := "a\nb b\n \nc",
          layout := "quadrant-1-2-large" }).bodyUseBullets = true ∧
      countOcc "<li>".data
          (bulletItemsHtml
            ({ header := "", title := "", bodyText := "a\nb b\n \nc",
               layout := "quadrant-1-2-large" } : SlideState).bodyText)
        = (bodyParagraphs
            ({ header := "", title := "", bodyText := "a\nb b\n \nc",
               layout := "quadrant-1-2-large" } : SlideState).bodyText).length) :=
  ⟨rfl, c8_bullet_count _ rfl⟩

/-- C9 counterexample: with the 70-unit approximate title character width,
`wrap("Roadmap Overview", 960, 125, −5)` is *not* the single line
`["Roadmap Overview"]` — the adjusted width 16·70 − 15·5 = 1045 exceeds
960, so the wrapper breaks the text. -/
theorem c9_counterexample :
    wrapText "Roadmap Overview" 960 125 (-5) ≠ ["Roadmap Overview".data] := by
  simp only [wrapText, wrapTextC, wrapWords, splitOnChar, lineWidth, approxMeasure,
    approxCharWidth]
  simp
  norm_num

/-- C9 (amended): the call returns the two-line list
`["Roadmap", "Overview"]`. -/
theorem c9_wrap_roadmap_overview :
    wrapText "Roadmap Overview" 960 125 (-5) = ["Roadmap".data, "Overview".data] := by
  simp only [wrapText, wrapTextC, wrapWords, splitOnChar, lineWidth, approxMeasure,
    approxCharWidth]
  simp
  norm_num

/-- C10: for a text whose space-split words are all non-empty (no leading,
trailing or doubled spaces), joining the wrapper's lines with single
spaces restores the text exactly — no character lost, duplicated or
reordered — and every returned line is non-empty; this holds for every
max width, font size and letter-spacing. -/
theorem c10_wrap_reconstructs (text : String) (maxWidth fontSize letterSpacing : ℚ)
    (h : ∀ w ∈ splitOnChar ' ' text.data, w ≠ []) :
    joinSp (wrapText text maxWidth fontSize letterSpacing) = text.data ∧
    ∀ line ∈ wrapText text maxWidth fontSize letterSpacing, line ≠ [] := by
  constructor
  · rw [wrapText, wrapTextC,
      wrapWords_join (approxMeasure fontSize) maxWidth letterSpacing
        (splitOnChar ' ' text.data) [] h,
      if_pos rfl, joinSp_splitOnChar]
  · exact fun line hl => wrapWords_ne_nil _ _ _ _ _ line hl

/-- C10 witness: reconstruction of `"hello world"` under the body font. -/
theorem c10_wrap_reconstructs_witness :
    (∀ w ∈ splitOnChar ' ' ("hello world" : String).data, w ≠ []) ∧
    (joinSp (wrapText "hello world" 960 22 (-0.66)) = ("hello world" : String).data ∧
      ∀ line ∈ wrapText "hello world" 960 22 (-0.66), line ≠ []) :=
  ⟨by decide, c10_wrap_reconstructs "hello world" 960 22 (-0.66) (by decide)⟩

end Sliiide
